import Mathlib

/-!
Verification of the Launchpad light-pattern engine of the clubmaquis
repository (`scripts/setup/launchpad_lights.py` and
`scripts/common/logger.py`).

The Python functions are shallowly embedded as executable Lean
definitions: grid positions are pairs of integers, the random draws a
function consumes are passed explicitly as parameters (a coin for each
50% branch, a finite list of draws for each rejection-sampling loop,
an index for each uniform choice from a list), and operations that may
raise an exception are embedded as `Except`-valued functions.
-/

namespace Clubmaquis

/-- A grid position `(row, column)`; Python uses plain machine ints. -/
abbrev Pos := Int × Int

/-- `SNAKE_DIRS` from launchpad_lights.py: up, down, left, right. -/
def SNAKE_DIRS : List Pos := [(-1, 0), (1, 0), (0, -1), (0, 1)]

/-- `DOT_DIRS` from launchpad_lights.py: all 8 directions. -/
def DOT_DIRS : List Pos :=
  [(-1, 0), (1, 0), (0, -1), (0, 1), (-1, -1), (-1, 1), (1, -1), (1, 1)]

/-- `DOT_FORBIDDEN` from launchpad_lights.py: 3 cells in each corner. -/
def DOT_FORBIDDEN : List Pos :=
  [(0, 0), (0, 1), (1, 0),
   (0, 7), (0, 6), (1, 7),
   (7, 0), (6, 0), (7, 1),
   (7, 7), (7, 6), (6, 7)]

/-- `max(0, min(7, x))`, the clamping used for snake and dot moves. -/
def clamp (x : Int) : Int := max 0 (min 7 x)

/-- Clamp both coordinates of a position to the 8x8 grid. -/
def clampPos (p : Pos) : Pos := (clamp p.1, clamp p.2)

/-- Manhattan distance `abs(r1 - r2) + abs(c1 - c2)` (the
`square_distance` helper inside `_move_dot_away`). -/
def manhattan (p q : Pos) : Int := |p.1 - q.1| + |p.2 - q.2|

/-- The bounds check `0 <= r <= 7 and 0 <= c <= 7`. -/
def inGridB (p : Pos) : Bool :=
  decide (0 ≤ p.1 ∧ p.1 ≤ 7 ∧ 0 ≤ p.2 ∧ p.2 ≤ 7)

/-- The valid-direction filter of `_choose_snake_direction`: axis moves
whose destination is on the grid and not in `snake_body[1:]`. -/
def snakeValidDirs (head : Pos) (snake_body : List Pos) : List Pos :=
  SNAKE_DIRS.filter (fun d =>
    inGridB (head.1 + d.1, head.2 + d.2) &&
    !(List.contains (snake_body.drop 1) (head.1 + d.1, head.2 + d.2)))

/-- `score_dir` inside `_choose_snake_direction`: add `abs(row_diff)`
when moving vertically toward the dot, `abs(col_diff)` when moving
horizontally toward the dot. -/
def scoreDir (row_diff col_diff : Int) (d : Pos) : Int :=
  (if row_diff > 0 ∧ d.1 > 0 then |row_diff|
   else if row_diff < 0 ∧ d.1 < 0 then |row_diff| else 0) +
  (if col_diff > 0 ∧ d.2 > 0 then |col_diff|
   else if col_diff < 0 ∧ d.2 < 0 then |col_diff| else 0)

/-- One insertion step of a stable descending insertion sort on
score/payload pairs; later elements are placed after earlier elements
of equal score, matching Python's stable `list.sort(key=-score)`. -/
def insertScoredDesc (x : Int × Pos) : List (Int × Pos) → List (Int × Pos)
  | [] => [x]
  | y :: ys => if y.1 > x.1 then y :: insertScoredDesc x ys else x :: y :: ys

/-- Stable descending sort by score, the model of
`scored.sort(key=lambda x: -x[0])`. -/
def sortScoredDesc : List (Int × Pos) → List (Int × Pos)
  | [] => []
  | x :: xs => insertScoredDesc x (sortScoredDesc xs)

/-- The tail of `_choose_snake_direction`: from the sorted score list,
return `scored[0][1]`, except that when `len(scored) > 1` and the top
two scores are equal a coin (`random.random() > 0.5`) picks
`scored[1][1]`; an empty list returns the current direction. -/
def pick_scored (current_dir : Pos) (coin : Bool) :
    List (Int × Pos) → Pos
  | [] => current_dir
  | [s] => s.2
  | s0 :: s1 :: _ => if s0.1 == s1.1 && coin then s1.2 else s0.2

/-- `_choose_snake_direction`: filter valid axis moves, score them,
stable-sort descending, and pick via `pick_scored`. -/
def choose_snake_direction (head dot current_dir : Pos)
    (snake_body : List Pos) (coin : Bool) : Pos :=
  pick_scored current_dir coin
    (sortScoredDesc ((snakeValidDirs head snake_body).map
      (fun d => (scoreDir (dot.1 - head.1) (dot.2 - head.2) d, d))))

/-- One snake tick of `_pattern_hunt` (lines 461-474): choose a
direction, clamp the new head to the grid, and advance
(`[new_head] + snake[:-1]`) only when the new head is not in
`snake[1:]`.  Returns the new snake and the direction kept for the
next tick. -/
def snake_tick (snake : List Pos) (dot : Pos) (snake_dir : Pos)
    (coin : Bool) : List Pos × Pos :=
  match snake with
  | [] => ([], snake_dir)
  | head :: rest =>
    let d := choose_snake_direction head dot snake_dir (head :: rest) coin
    let new_head := clampPos (head.1 + d.1, head.2 + d.2)
    if List.contains rest new_head then (head :: rest, d)
    else (new_head :: (head :: rest).dropLast, d)

/-- The candidate list of `_move_dot_away`: for each of the 8
directions, clamp the destination to the grid, skip it when it did not
actually move or is forbidden, and score it by the change in Manhattan
distance from the snake head. -/
def dot_scored_dirs (dot snake_head : Pos) : List (Int × Pos) :=
  DOT_DIRS.filterMap (fun d =>
    let n : Pos := (clamp (dot.1 + d.1), clamp (dot.2 + d.2))
    if n = dot ∨ n ∈ DOT_FORBIDDEN then none
    else some (manhattan n snake_head - manhattan dot snake_head, d))

/-- `best_dirs` of `_move_dot_away`: sort the candidates by score
descending and keep the directions achieving `scored_dirs[0][0]`. -/
def dot_best_dirs (dot snake_head : Pos) : List Pos :=
  let sorted := sortScoredDesc (dot_scored_dirs dot snake_head)
  (sorted.filter (fun x => x.1 == sorted.headI.1)).map (fun x => x.2)

/-- `_move_dot_away`: when no candidate survives, stay in place;
otherwise pick `best_dirs[k % len(best_dirs)]` (modelling
`random.choice(best_dirs)` by the explicit index `k`) and return the
clamped destination. -/
def move_dot_away (dot snake_head : Pos) (k : Nat) : Pos :=
  if dot_scored_dirs dot snake_head = [] then dot
  else
    let best := dot_best_dirs dot snake_head
    let d := best.getD (k % best.length) (0, 0)
    (clamp (dot.1 + d.1), clamp (dot.2 + d.2))

/-- The list of destinations `random.choice` draws from in
`_move_dot_away`, with multiplicity (one entry per best direction). -/
def move_dot_results (dot snake_head : Pos) : List Pos :=
  (dot_best_dirs dot snake_head).map
    (fun d => (clamp (dot.1 + d.1), clamp (dot.2 + d.2)))

/-- Largest score of a candidate list (0 for an empty list). -/
def maxScore : List (Int × Pos) → Int
  | [] => 0
  | x :: xs => xs.foldl (fun m y => max m y.1) x.1

/-- Modelled from the claim's words for C4 (refinement reference):
evaluate all 8 neighboring moves, discard every move that exits the
grid, does not change the position, or lands in a forbidden corner
cell, and score the remaining moves by the increase in Manhattan
distance from the chaser's head. -/
def dot_scored_dirs_spec (dot snake_head : Pos) : List (Int × Pos) :=
  DOT_DIRS.filterMap (fun d =>
    let n : Pos := (dot.1 + d.1, dot.2 + d.2)
    if ¬ (0 ≤ n.1 ∧ n.1 ≤ 7 ∧ 0 ≤ n.2 ∧ n.2 ≤ 7) ∨ n = dot ∨ n ∈ DOT_FORBIDDEN
    then none
    else some (manhattan n snake_head - manhattan dot snake_head, d))

/-- Modelled from the claim's words for C4 (refinement reference): the
destinations of the moves maximizing the increase, from which the
claim's dot picks uniformly at random. -/
def move_dot_results_spec (dot snake_head : Pos) : List Pos :=
  let scored := dot_scored_dirs_spec dot snake_head
  (scored.filter (fun x => x.1 = maxScore scored)).map
    (fun x => (dot.1 + x.2.1, dot.2 + x.2.2))

/-- `_spawn_dot_away_from`: rejection-sample positions until one is
neither on the snake nor forbidden and either has Manhattan distance
at least 3 from the snake head or wins a coin flip.  The random stream
is passed explicitly as a finite list of draws (`randint(0,7)` pairs
together with the `random.random() > 0.5` coin of that iteration);
`none` means the stream was exhausted without returning. -/
def spawn_dot_away_from (snake : List Pos) :
    List ((Fin 8 × Fin 8) × Bool) → Option Pos
  | [] => none
  | (rc, coin) :: rest =>
    if ((rc.1.val : Int), (rc.2.val : Int)) ∉ snake ∧
       ((rc.1.val : Int), (rc.2.val : Int)) ∉ DOT_FORBIDDEN ∧
       (3 ≤ manhattan ((rc.1.val : Int), (rc.2.val : Int)) snake.headI ∨
         coin = true)
    then some ((rc.1.val : Int), (rc.2.val : Int))
    else spawn_dot_away_from snake rest

/-- The `while dot_color_idx == old_color_idx` loop of `_pattern_hunt`
after a catch: redraw `randint(0, len(COOL_COLORS)-1)` until the index
differs from the previous one; the draws are passed explicitly. -/
def pick_new_color (old : Nat) : List Nat → Option Nat
  | [] => none
  | c :: rest => if c = old then pick_new_color old rest else some c

/-- The snake of `_pattern_hunt` at initialization:
`[(3, 3 - i) for i in range(5)]` (its last cell `(3, -1)` lies off the
grid). -/
def hunt_initial_snake : List Pos := [(3, 3), (3, 2), (3, 1), (3, 0), (3, -1)]

/-- One event affecting the dot position during the hunt pattern:
either a flee move (with the snake head and the `random.choice` index)
or a respawn after a catch (with the snake and the sampler's draws; an
exhausted stream leaves the dot in place, standing for the
non-returning loop). -/
inductive DotEvent where
  | move : Pos → Nat → DotEvent
  | respawn : List Pos → List ((Fin 8 × Fin 8) × Bool) → DotEvent

/-- Apply one dot event. -/
def dot_event_step (dot : Pos) : DotEvent → Pos
  | .move snake_head k => move_dot_away dot snake_head k
  | .respawn snake draws => (spawn_dot_away_from snake draws).getD dot

/-- Embed a coordinate pair of the 8x8 grid into `Pos`. -/
def finToPos (q : Fin 8 × Fin 8) : Pos := ((q.1.val : Int), (q.2.val : Int))

/-- The grid cells that are neither occupied by the given snake nor
forbidden for the dot. -/
def free_cells (snake : List Pos) : Finset (Fin 8 × Fin 8) :=
  Finset.univ.filter (fun q =>
    finToPos q ∉ snake ∧ finToPos q ∉ DOT_FORBIDDEN)

/-- A MIDI message sent to the device: a note-on (LED set) or a SysEx
control message. -/
inductive MidiMsg where
  | noteOn (note velocity channel : Nat)
  | sysex (data : List Nat)
deriving DecidableEq

/-- `_send_note_on` as seen by the render loop: when the output
channel is absent the message is silently dropped (`if self._outport`
guard); when the channel is present the underlying `outport.send` may
raise a device error, which this function does not catch - `sendFails`
says whether the transport raises.  Returns the messages that reached
the device. -/
def send_note_on (outport : Option Unit) (sendFails : Bool)
    (note velocity channel : Nat) : Except String (List MidiMsg) :=
  match outport with
  | none => .ok []
  | some _ =>
    if sendFails then .error "device error"
    else .ok [.noteOn note velocity channel]

/-- `JSONLLogger._write_entry`: an `OSError` raised by the file write
is reported on stderr and then re-raised to the caller; `writeError`
says whether (and with what message) the write raises. -/
def write_entry (writeError : Option String) : Except String Unit :=
  match writeError with
  | some e => .error e
  | none => .ok ()

/-- Character-list helper: does the text begin with the pattern? -/
def charsStartWith : List Char → List Char → Bool
  | _, [] => true
  | [], _ :: _ => false
  | a :: as, b :: bs => a == b && charsStartWith as bs

/-- Character-list helper: does the pattern occur in the text
(Python's `in` operator on strings)? -/
def charsContain : List Char → List Char → Bool
  | [], pat => pat.isEmpty
  | a :: as, pat => charsStartWith (a :: as) pat || charsContain as pat

/-- Python's `pat in s` substring test. -/
def strContains (s pat : String) : Bool := charsContain s.toList pat.toList

/-- `LAUNCHPAD_PORT_PATTERN` from launchpad_lights.py. -/
def LAUNCHPAD_PORT_PATTERN : String := "Launchpad Mini MK3"

/-- The port filter of `connect`:
`LAUNCHPAD_PORT_PATTERN in name and "MIDI" in name`. -/
def port_name_matches (name : String) : Bool :=
  strContains name LAUNCHPAD_PORT_PATTERN && strContains name "MIDI"

/-- The environment `connect` runs against: whether the mido library
imported, the available output port names, and whether
`mido.open_output` raises a device error. -/
structure MidoEnv where
  available : Bool
  output_names : List String
  open_fails : Bool

/-- `LaunchpadLights.connect`: returns success, the opened port, and
the messages sent to the device (none are ever sent while
connecting). -/
def connect (env : MidoEnv) : Bool × Option String × List MidiMsg :=
  if env.available = false then (false, none, [])
  else
    match env.output_names.find? port_name_matches with
    | none => (false, none, [])
    | some port =>
      if env.open_fails then (false, none, []) else (true, some port, [])

/-- The device-visible state of a `LaunchpadLights` instance: the
output channel, the run flag, the last-sent color per note, whether
the mode-reset (Session-layout) SysEx was sent, and whether the port
object's `close()` ran. -/
structure LightsState where
  outport : Option Unit
  running : Bool
  leds : Nat → Nat
  modeResetSent : Bool
  portClosed : Bool

/-- `_send_note_on` acting on the tracked per-note last-sent color
(messages are dropped when the channel is absent). -/
def led_send_note_on (st : LightsState) (note velocity : Nat) : LightsState :=
  match st.outport with
  | none => st
  | some _ =>
    { st with leds := fun n => if n = note then velocity else st.leds n }

/-- `PAD_GRID` flattened row by row (top row first), the iteration
order of `_clear_all_leds`. -/
def PAD_NOTES : List Nat :=
  [81, 82, 83, 84, 85, 86, 87, 88,
   71, 72, 73, 74, 75, 76, 77, 78,
   61, 62, 63, 64, 65, 66, 67, 68,
   51, 52, 53, 54, 55, 56, 57, 58,
   41, 42, 43, 44, 45, 46, 47, 48,
   31, 32, 33, 34, 35, 36, 37, 38,
   21, 22, 23, 24, 25, 26, 27, 28,
   11, 12, 13, 14, 15, 16, 17, 18]

/-- `range(91, 99)`, the top-row control buttons cleared after the
grid. -/
def CONTROL_NOTES : List Nat := [91, 92, 93, 94, 95, 96, 97, 98]

/-- `_clear_all_leds`: send velocity 0 to every grid note and every
control note. -/
def clear_all_leds (st : LightsState) : LightsState :=
  (PAD_NOTES ++ CONTROL_NOTES).foldl (fun s n => led_send_note_on s n 0) st

/-- `_exit_programmer_mode`: sends the Session-layout SysEx (the
device mode reset) when the channel is present. -/
def exit_programmer_mode (st : LightsState) : LightsState :=
  match st.outport with
  | none => st
  | some _ => { st with modeResetSent := true }

/-- `LaunchpadLights.stop`: clears the run flag (the thread join has
no device-visible effect). -/
def stop (st : LightsState) : LightsState := { st with running := false }

/-- `LaunchpadLights.disconnect` with failure injection: `exitFails`,
`clearFails` and `closeFails` say whether `_exit_programmer_mode`,
`_clear_all_leds` or `outport.close()` raises `OSError`/`ValueError`;
the `except: pass` swallows the exception, abandoning the remaining
statements of the `try` block, and `self._outport = None` always
runs afterwards. -/
def disconnect (st : LightsState)
    (exitFails clearFails closeFails : Bool) : LightsState :=
  let st0 := stop st
  if st0.outport = none then st0
  else if exitFails then { st0 with outport := none }
  else
    let st1 := exit_programmer_mode st0
    if clearFails then { st1 with outport := none }
    else
      let st2 := clear_all_leds st1
      if closeFails then { st2 with outport := none }
      else { st2 with portClosed := true, outport := none }

/-- A connected instance with all LEDs lit, used as a concrete
fixture. -/
def demo_connected_state : LightsState :=
  { outport := some (), running := false, leds := fun _ => 5,
    modeResetSent := false, portClosed := false }

/-- The two render loops `start` can launch. -/
inductive LoopKind where
  | hunt
  | randomPatterns
deriving DecidableEq

/-- `LaunchpadLights.start`: auto-connect when the channel is absent
(failing when the connect fails), succeed immediately when already
running, otherwise set the run flag and launch the loop selected by
`pattern == "random"` - every other string selects the hunt loop.
Returns the boolean result, the run flag afterwards, and the loop
launched by this call (if any). -/
def start (outportPresent running connectSucceeds : Bool)
    (pattern : String) : Bool × Bool × Option LoopKind :=
  if outportPresent = false ∧ connectSucceeds = false then
    (false, running, none)
  else if running then (true, true, none)
  else
    (true, true,
      some (if pattern == "random" then LoopKind.randomPatterns
            else LoopKind.hunt))

/-- Executable comparison of the code's dot-move outcome list with the
claim's: both are empty together, and every destination is drawn with
the same probability (cross-multiplied counts agree). -/
def checkPair (dot snake_head : Pos) : Bool :=
  let rc := move_dot_results dot snake_head
  let rs := move_dot_results_spec dot snake_head
  decide (rc = [] ↔ rs = []) &&
  (rc ++ rs).all (fun p =>
    decide (rc.count p * rs.length = rs.count p * rc.length))

/-! ### Properties of the stable sort -/

theorem mem_insertScoredDesc {z x : Int × Pos} :
    ∀ {l : List (Int × Pos)},
      z ∈ insertScoredDesc x l ↔ z = x ∨ z ∈ l := by
  intro l
  induction l with
  | nil => simp [insertScoredDesc]
  | cons y ys ih =>
    simp only [insertScoredDesc]
    split
    · simp only [List.mem_cons, ih]
      try tauto
    · simp only [List.mem_cons]
      try tauto

theorem mem_sortScoredDesc {z : Int × Pos} :
    ∀ {l : List (Int × Pos)}, z ∈ sortScoredDesc l ↔ z ∈ l := by
  intro l
  induction l with
  | nil => simp [sortScoredDesc]
  | cons x xs ih =>
    simp only [sortScoredDesc, mem_insertScoredDesc, ih, List.mem_cons]

theorem insertScoredDesc_ne_nil (x : Int × Pos) (l : List (Int × Pos)) :
    insertScoredDesc x l ≠ [] := by
  cases l with
  | nil => simp [insertScoredDesc]
  | cons y ys =>
    simp only [insertScoredDesc]
    split <;> simp

theorem sortScoredDesc_eq_nil_iff {l : List (Int × Pos)} :
    sortScoredDesc l = [] ↔ l = [] := by
  cases l with
  | nil => simp [sortScoredDesc]
  | cons x xs =>
    simp only [sortScoredDesc]
    exact ⟨fun h => absurd h (insertScoredDesc_ne_nil _ _), fun h => by simp at h⟩

theorem headI_max_insertScoredDesc {x : Int × Pos} {l : List (Int × Pos)}
    (hl : ∀ z ∈ l, z.1 ≤ l.headI.1) :
    ∀ z ∈ insertScoredDesc x l, z.1 ≤ (insertScoredDesc x l).headI.1 := by
  cases l with
  | nil =>
    intro z hz
    simp [insertScoredDesc] at hz
    simp [insertScoredDesc, hz]
  | cons y ys =>
    intro z hz
    simp only [insertScoredDesc] at hz ⊢
    by_cases hcmp : y.1 > x.1
    · simp only [if_pos hcmp] at hz ⊢
      simp only [List.headI]
      rcases List.mem_cons.mp hz with hzy | hz'
      · exact hzy ▸ le_refl _
      · rcases mem_insertScoredDesc.mp hz' with hzx | hzys
        · exact hzx ▸ le_of_lt hcmp
        · have := hl z (List.mem_cons_of_mem _ hzys)
          simpa [List.headI] using this
    · simp only [if_neg hcmp] at hz ⊢
      simp only [List.headI]
      rcases List.mem_cons.mp hz with hzx | hz'
      · exact hzx ▸ le_refl _
      · rcases List.mem_cons.mp hz' with hzy | hzys
        · exact hzy ▸ le_of_not_lt hcmp
        · refine le_trans (hl z (List.mem_cons_of_mem _ hzys)) ?_
          simpa [List.headI] using le_of_not_lt hcmp

theorem headI_max_sortScoredDesc :
    ∀ (l : List (Int × Pos)), ∀ z ∈ sortScoredDesc l,
      z.1 ≤ (sortScoredDesc l).headI.1 := by
  intro l
  induction l with
  | nil => intro z hz; simp [sortScoredDesc] at hz
  | cons x xs ih =>
    intro z hz
    simp only [sortScoredDesc] at hz ⊢
    exact headI_max_insertScoredDesc ih z hz

theorem pick_scored_spec (cur : Pos) (coin : Bool)
    (l : List (Int × Pos)) (hne : l ≠ []) :
    ∃ s ∈ l, pick_scored cur coin l = s.2 ∧ s.1 = l.headI.1 := by
  match l with
  | [] => exact absurd rfl hne
  | [s] => exact ⟨s, by simp [pick_scored, List.headI]⟩
  | s0 :: s1 :: rest =>
    by_cases hc : (s0.1 == s1.1 && coin) = true
    · refine ⟨s1, by simp, ?_, ?_⟩
      · simp [pick_scored, hc]
      · have : s0.1 = s1.1 := by
          have := (Bool.and_eq_true _ _).mp hc |>.1
          exact beq_iff_eq.mp this
        simp [List.headI, this]
    · refine ⟨s0, by simp, ?_, by simp [List.headI]⟩
      simp [pick_scored, hc]

theorem clamp_of_mem_grid {x : Int} (h0 : 0 ≤ x) (h7 : x ≤ 7) :
    clamp x = x := by
  simp only [clamp]
  omega

/-- Membership in `snakeValidDirs` unpacked: the direction is one of
the four axis moves, its destination is on the grid, differs from the
head, and avoids `snake_body[1:]`. -/
theorem mem_snakeValidDirs {head d : Pos} {body : List Pos}
    (hd : d ∈ snakeValidDirs head body) :
    d ∈ SNAKE_DIRS ∧
    clampPos (head.1 + d.1, head.2 + d.2) = (head.1 + d.1, head.2 + d.2) ∧
    (head.1 + d.1, head.2 + d.2) ≠ head ∧
    (head.1 + d.1, head.2 + d.2) ∉ body.drop 1 := by
  rcases List.mem_filter.mp hd with ⟨hdirs, hcond⟩
  rcases Bool.and_eq_true _ _ |>.mp hcond with ⟨hgrid, hnotmem⟩
  have hbounds := of_decide_eq_true hgrid
  obtain ⟨hr0, hr7, hc0, hc7⟩ := hbounds
  refine ⟨hdirs, ?_, ?_, ?_⟩
  · simp only [clampPos, clamp_of_mem_grid hr0 hr7, clamp_of_mem_grid hc0 hc7]
  · have : d ≠ (0, 0) ∧ (d.1 = 0 ∨ d.2 = 0) := by
      simp only [SNAKE_DIRS, List.mem_cons, List.not_mem_nil, or_false] at hdirs
      rcases hdirs with h | h | h | h <;> subst h <;> simp
    intro heq
    have h1 : head.1 + d.1 = head.1 := congrArg Prod.fst heq
    have h2 : head.2 + d.2 = head.2 := congrArg Prod.snd heq
    exact this.1 (Prod.ext (by omega) (by omega))
  · intro hmem
    simp at hnotmem
    rw [List.drop_one] at hmem
    exact hnotmem hmem

/-- When at least one direction is valid, `_choose_snake_direction`
returns a valid direction whose score is maximal among valid
directions. -/
theorem choose_snake_direction_spec (head dot cur : Pos)
    (body : List Pos) (coin : Bool)
    (hne : snakeValidDirs head body ≠ []) :
    choose_snake_direction head dot cur body coin ∈ snakeValidDirs head body ∧
    ∀ d ∈ snakeValidDirs head body,
      scoreDir (dot.1 - head.1) (dot.2 - head.2) d ≤
        scoreDir (dot.1 - head.1) (dot.2 - head.2)
          (choose_snake_direction head dot cur body coin) := by
  set f : Pos → Int × Pos :=
    fun d => (scoreDir (dot.1 - head.1) (dot.2 - head.2) d, d) with hf
  set L : List (Int × Pos) := (snakeValidDirs head body).map f with hL
  have hLne : L ≠ [] := by
    simp only [hL, ne_eq, List.map_eq_nil_iff]
    exact hne
  have hsne : sortScoredDesc L ≠ [] := by
    intro h
    exact hLne (sortScoredDesc_eq_nil_iff.mp h)
  obtain ⟨s, hsmem, hpick, hstop⟩ := pick_scored_spec cur coin _ hsne
  have hsL : s ∈ L := mem_sortScoredDesc.mp hsmem
  obtain ⟨d0, hd0, hd0s⟩ := List.mem_map.mp hsL
  have hchoice : choose_snake_direction head dot cur body coin = d0 := by
    rw [choose_snake_direction, hpick, ← hd0s]
  have hscore : scoreDir (dot.1 - head.1) (dot.2 - head.2) d0 =
      (sortScoredDesc L).headI.1 := by
    rw [← hstop, ← hd0s]
  constructor
  · rw [hchoice]; exact hd0
  · intro d hd
    rw [hchoice, hscore]
    have : f d ∈ sortScoredDesc L :=
      mem_sortScoredDesc.mpr (List.mem_map.mpr ⟨d, hd, rfl⟩)
    exact headI_max_sortScoredDesc L (f d) this

/-- When no direction is valid, `_choose_snake_direction` returns the
current direction unchanged. -/
theorem choose_snake_direction_stuck (head dot cur : Pos)
    (body : List Pos) (coin : Bool)
    (hemp : snakeValidDirs head body = []) :
    choose_snake_direction head dot cur body coin = cur := by
  rw [choose_snake_direction, hemp]
  rfl

theorem abs_eq_ite (x : Int) : |x| = if 0 ≤ x then x else -x := by
  by_cases h : 0 ≤ x
  · rw [if_pos h, abs_of_nonneg h]
  · rw [if_neg h, abs_of_neg (lt_of_not_le h)]

set_option maxHeartbeats 1600000 in
/-- Score/distance dichotomy: an axis direction with positive score
moves one step closer to the dot in Manhattan distance, one with score
zero moves one step further away. -/
theorem scoreDir_dichotomy (head dot : Pos) {d : Pos}
    (hd : d ∈ SNAKE_DIRS) :
    (0 < scoreDir (dot.1 - head.1) (dot.2 - head.2) d ∧
       manhattan (head.1 + d.1, head.2 + d.2) dot + 1 = manhattan head dot) ∨
    (scoreDir (dot.1 - head.1) (dot.2 - head.2) d = 0 ∧
       manhattan (head.1 + d.1, head.2 + d.2) dot = manhattan head dot + 1) := by
  simp only [SNAKE_DIRS, List.mem_cons, List.not_mem_nil, or_false] at hd
  rcases hd with h | h | h | h <;> subst h <;>
    simp only [scoreDir, manhattan, abs_eq_ite] <;>
    split_ifs <;> omega

/-! ### Claims C1 and C2 -/

/-- C1 (counterexample): the claim "after the tick the chaser's head
does not intersect any trailing body cell ... including the case where
no valid direction exists and the chaser holds its current direction
with the resulting position clamped to grid bounds" is false.  With
head `(0,0)`, body `[(0,1),(1,0),(2,2),(3,3)]` and held direction
`(-1,0)`, no direction is valid, the held move clamps back onto the
current head, and the tick duplicates the head into the body. -/
theorem hunt_tick_head_overlap_counterexample :
    ((0 : Int), (0 : Int)) ∉
      ([((0 : Int), (1 : Int)), (1, 0), (2, 2), (3, 3)] : List Pos) ∧
    (snake_tick [((0 : Int), (0 : Int)), (0, 1), (1, 0), (2, 2), (3, 3)]
        (5, 5) (-1, 0) true).1 =
      [((0 : Int), (0 : Int)), (0, 0), (0, 1), (1, 0), (2, 2)] ∧
    (snake_tick [((0 : Int), (0 : Int)), (0, 1), (1, 0), (2, 2), (3, 3)]
        (5, 5) (-1, 0) true).1.headI ∈
      (snake_tick [((0 : Int), (0 : Int)), (0, 1), (1, 0), (2, 2), (3, 3)]
        (5, 5) (-1, 0) true).1.tail := by
  decide

/-- C1 (amended): from a state whose head is not on the body, a chaser
tick keeps the head off the trailing body whenever some valid
direction exists, or the held direction's clamped destination differs
from the current head.  (In the remaining case - stuck with the held
move clamping back onto the head - the head is duplicated into the
body, as the counterexample shows.) -/
theorem hunt_tick_head_disjoint_amended (head : Pos) (rest : List Pos)
    (dot dir : Pos) (coin : Bool)
    (h1 : head ∉ rest)
    (h2 : snakeValidDirs head (head :: rest) ≠ [] ∨
          clampPos (head.1 + dir.1, head.2 + dir.2) ≠ head) :
    (snake_tick (head :: rest) dot dir coin).1.headI ∉
      (snake_tick (head :: rest) dot dir coin).1.tail := by
  set d := choose_snake_direction head dot dir (head :: rest) coin with hd
  set nh := clampPos (head.1 + d.1, head.2 + d.2) with hnh
  have hneq : nh ≠ head := by
    by_cases hval : snakeValidDirs head (head :: rest) = []
    · have hd_eq : d = dir :=
        choose_snake_direction_stuck head dot dir (head :: rest) coin hval
      rcases h2 with h2a | h2b
      · exact absurd hval h2a
      · rw [hnh, hd_eq]; exact h2b
    · have hspec :=
        (choose_snake_direction_spec head dot dir (head :: rest) coin hval).1
      obtain ⟨_, hclampid, hne, _⟩ := mem_snakeValidDirs hspec
      rw [hnh, hd, hclampid]
      exact hne
  have htick : snake_tick (head :: rest) dot dir coin =
      if List.contains rest nh then (head :: rest, d)
      else (nh :: (head :: rest).dropLast, d) := by
    rw [hnh, hd]; rfl
  rw [htick]
  by_cases hc : List.contains rest nh = true
  · rw [if_pos hc]
    simpa using h1
  · rw [if_neg hc]
    simp only [List.headI, List.tail]
    intro hmem
    have hsub : nh ∈ head :: rest :=
      (List.dropLast_sublist (head :: rest)).subset hmem
    rcases List.mem_cons.mp hsub with h | h
    · exact hneq h
    · exact hc (by simpa using h)

/-- C1 amended, witness: one tick from the code's initial snake with
the dot at `(0,3)`. -/
theorem hunt_tick_head_disjoint_witness :
    (snake_tick [((3 : Int), (3 : Int)), (3, 2), (3, 1), (3, 0), (3, -1)]
        (0, 3) (0, 1) false).1.headI ∉
      (snake_tick [((3 : Int), (3 : Int)), (3, 2), (3, 1), (3, 0), (3, -1)]
        (0, 3) (0, 1) false).1.tail :=
  hunt_tick_head_disjoint_amended (3, 3) [(3, 2), (3, 1), (3, 0), (3, -1)]
    (0, 3) (0, 1) false (by decide) (Or.inl (by decide))

/-- C2 (counterexample): the claim "whenever two valid moves reduce
the Manhattan distance to the target equally, the choice between them
is made by the 50% tie-break" is false.  With head `(0,0)` and dot
`(2,1)`, both `(1,0)` and `(0,1)` are valid and reduce the Manhattan
distance by one, yet the code scores them `|row_diff| = 2` versus
`|col_diff| = 1` and deterministically returns `(1,0)` for both values
of the coin. -/
theorem choose_direction_tiebreak_counterexample :
    choose_snake_direction (0, 0) (2, 1) (0, 1) [(0, 0)] true = (1, 0) ∧
    choose_snake_direction (0, 0) (2, 1) (0, 1) [(0, 0)] false = (1, 0) ∧
    ((1 : Int), (0 : Int)) ∈ snakeValidDirs (0, 0) [(0, 0)] ∧
    ((0 : Int), (1 : Int)) ∈ snakeValidDirs (0, 0) [(0, 0)] ∧
    manhattan (1, 0) (2, 1) + 1 = manhattan (0, 0) (2, 1) ∧
    manhattan (0, 1) (2, 1) + 1 = manhattan (0, 0) (2, 1) := by
  decide

/-- C2 (amended): the choice is among the valid axis moves and
minimizes the Manhattan distance of the destination to the target
(for every value of the coin); the 50% tie-break applies when the top
two entries of the code's score ranking (scores `|row_diff|` or
`|col_diff|` for moves toward the dot, 0 otherwise) are equal, not
whenever two moves reduce the distance equally; with no valid move the
current direction is returned unchanged. -/
theorem choose_direction_greedy_amended (head dot cur : Pos)
    (body : List Pos) (coin : Bool) :
    (snakeValidDirs head body = [] →
       choose_snake_direction head dot cur body coin = cur) ∧
    (snakeValidDirs head body ≠ [] →
       choose_snake_direction head dot cur body coin ∈ snakeValidDirs head body ∧
       ∀ d ∈ snakeValidDirs head body,
         manhattan (head.1 + (choose_snake_direction head dot cur body coin).1,
             head.2 + (choose_snake_direction head dot cur body coin).2) dot ≤
           manhattan (head.1 + d.1, head.2 + d.2) dot) := by
  refine ⟨choose_snake_direction_stuck head dot cur body coin, fun hne => ?_⟩
  obtain ⟨hmem, hmax⟩ := choose_snake_direction_spec head dot cur body coin hne
  refine ⟨hmem, fun d hd => ?_⟩
  have hc_dirs := (mem_snakeValidDirs hmem).1
  have hd_dirs := (mem_snakeValidDirs hd).1
  have h1 := scoreDir_dichotomy head dot hc_dirs
  have h2 := scoreDir_dichotomy head dot hd_dirs
  have hscore := hmax d hd
  rcases h1 with ⟨hs1, hm1⟩ | ⟨hs1, hm1⟩ <;>
    rcases h2 with ⟨hs2, hm2⟩ | ⟨hs2, hm2⟩ <;> omega

/-- C2 amended, witness: the concrete configuration of the
counterexample, instantiated with the competing move `(0,1)`. -/
theorem choose_direction_greedy_witness :
    choose_snake_direction (0, 0) (2, 1) (0, 1) [(0, 0)] true ∈
      snakeValidDirs (0, 0) [(0, 0)] ∧
    manhattan (((0, 0) : Pos).1 +
          (choose_snake_direction (0, 0) (2, 1) (0, 1) [(0, 0)] true).1,
        ((0, 0) : Pos).2 +
          (choose_snake_direction (0, 0) (2, 1) (0, 1) [(0, 0)] true).2) (2, 1) ≤
      manhattan (((0, 0) : Pos).1 + 0, ((0, 0) : Pos).2 + 1) (2, 1) := by
  have h := (choose_direction_greedy_amended (0, 0) (2, 1) (0, 1) [(0, 0)] true).2
    (by decide)
  exact ⟨h.1, h.2 (0, 1) (by decide)⟩

/-! ### Claim C4: dot movement refines the claim's description -/

set_option maxHeartbeats 4000000 in
theorem checkPair_row0 :
    ∀ (b c e : Fin 8),
      (((0 : Nat) : Int), (b.val : Int)) ∉ DOT_FORBIDDEN →
      checkPair (((0 : Nat) : Int), (b.val : Int))
        ((c.val : Int), (e.val : Int)) = true := by
  decide

set_option maxHeartbeats 4000000 in
theorem checkPair_row1 :
    ∀ (b c e : Fin 8),
      (((1 : Nat) : Int), (b.val : Int)) ∉ DOT_FORBIDDEN →
      checkPair (((1 : Nat) : Int), (b.val : Int))
        ((c.val : Int), (e.val : Int)) = true := by
  decide

set_option maxHeartbeats 4000000 in
theorem checkPair_row2 :
    ∀ (b c e : Fin 8),
      (((2 : Nat) : Int), (b.val : Int)) ∉ DOT_FORBIDDEN →
      checkPair (((2 : Nat) : Int), (b.val : Int))
        ((c.val : Int), (e.val : Int)) = true := by
  decide

set_option maxHeartbeats 4000000 in
theorem checkPair_row3 :
    ∀ (b c e : Fin 8),
      (((3 : Nat) : Int), (b.val : Int)) ∉ DOT_FORBIDDEN →
      checkPair (((3 : Nat) : Int), (b.val : Int))
        ((c.val : Int), (e.val : Int)) = true := by
  decide

set_option maxHeartbeats 4000000 in
theorem checkPair_row4 :
    ∀ (b c e : Fin 8),
      (((4 : Nat) : Int), (b.val : Int)) ∉ DOT_FORBIDDEN →
      checkPair (((4 : Nat) : Int), (b.val : Int))
        ((c.val : Int), (e.val : Int)) = true := by
  decide

set_option maxHeartbeats 4000000 in
theorem checkPair_row5 :
    ∀ (b c e : Fin 8),
      (((5 : Nat) : Int), (b.val : Int)) ∉ DOT_FORBIDDEN →
      checkPair (((5 : Nat) : Int), (b.val : Int))
        ((c.val : Int), (e.val : Int)) = true := by
  decide

set_option maxHeartbeats 4000000 in
theorem checkPair_row6 :
    ∀ (b c e : Fin 8),
      (((6 : Nat) : Int), (b.val : Int)) ∉ DOT_FORBIDDEN →
      checkPair (((6 : Nat) : Int), (b.val : Int))
        ((c.val : Int), (e.val : Int)) = true := by
  decide

set_option maxHeartbeats 4000000 in
theorem checkPair_row7 :
    ∀ (b c e : Fin 8),
      (((7 : Nat) : Int), (b.val : Int)) ∉ DOT_FORBIDDEN →
      checkPair (((7 : Nat) : Int), (b.val : Int))
        ((c.val : Int), (e.val : Int)) = true := by
  decide

theorem checkPair_unpack {dot snake_head : Pos}
    (h : checkPair dot snake_head = true) :
    (move_dot_results dot snake_head = [] ↔
      move_dot_results_spec dot snake_head = []) ∧
    ∀ p ∈ move_dot_results dot snake_head ++
          move_dot_results_spec dot snake_head,
      (move_dot_results dot snake_head).count p *
          (move_dot_results_spec dot snake_head).length =
        (move_dot_results_spec dot snake_head).count p *
          (move_dot_results dot snake_head).length := by
  rw [checkPair, Bool.and_eq_true] at h
  refine ⟨of_decide_eq_true h.1, fun p hp => ?_⟩
  exact of_decide_eq_true (List.all_eq_true.mp h.2 p hp)

/-- C4: the dot's tick realizes the claim's procedure exactly.  When
no candidate move survives the dot stays in place; otherwise, for
every on-grid non-forbidden dot position and every on-grid chaser
head, the code's draw (uniform over its best clamped directions) and
the claim's draw (uniform over the in-grid moves maximizing the
distance increase) produce every destination with equal probability:
both outcome lists are empty together and their cross-multiplied
counts agree. -/
theorem move_dot_away_matches_claim :
    (∀ dot snake_head k, dot_scored_dirs dot snake_head = [] →
       move_dot_away dot snake_head k = dot) ∧
    ∀ (a b c e : Fin 8),
      ((a.val : Int), (b.val : Int)) ∉ DOT_FORBIDDEN →
      ((move_dot_results ((a.val : Int), (b.val : Int))
          ((c.val : Int), (e.val : Int)) = [] ↔
        move_dot_results_spec ((a.val : Int), (b.val : Int))
          ((c.val : Int), (e.val : Int)) = []) ∧
       ∀ p ∈ move_dot_results ((a.val : Int), (b.val : Int))
               ((c.val : Int), (e.val : Int)) ++
             move_dot_results_spec ((a.val : Int), (b.val : Int))
               ((c.val : Int), (e.val : Int)),
         (move_dot_results ((a.val : Int), (b.val : Int))
               ((c.val : Int), (e.val : Int))).count p *
             (move_dot_results_spec ((a.val : Int), (b.val : Int))
               ((c.val : Int), (e.val : Int))).length =
           (move_dot_results_spec ((a.val : Int), (b.val : Int))
               ((c.val : Int), (e.val : Int))).count p *
             (move_dot_results ((a.val : Int), (b.val : Int))
               ((c.val : Int), (e.val : Int))).length) := by
  constructor
  · intro dot snake_head k h
    simp [move_dot_away, h]
  · intro a b c e h
    refine checkPair_unpack ?_
    fin_cases a
    · exact checkPair_row0 b c e h
    · exact checkPair_row1 b c e h
    · exact checkPair_row2 b c e h
    · exact checkPair_row3 b c e h
    · exact checkPair_row4 b c e h
    · exact checkPair_row5 b c e h
    · exact checkPair_row6 b c e h
    · exact checkPair_row7 b c e h

/-- C4, witness: the stuck branch at a far off-grid dot (every clamped
move is forbidden), and the distribution equality at dot `(3,4)`,
head `(0,0)`, where the unique best destination is `(4,5)`. -/
theorem move_dot_away_matches_claim_witness :
    move_dot_away (-9, -9) (0, 0) 0 = (-9, -9) ∧
    (move_dot_results (((3 : Nat) : Int), ((4 : Nat) : Int))
        (((0 : Nat) : Int), ((0 : Nat) : Int)) = [] ↔
      move_dot_results_spec (((3 : Nat) : Int), ((4 : Nat) : Int))
        (((0 : Nat) : Int), ((0 : Nat) : Int)) = []) := by
  refine ⟨move_dot_away_matches_claim.1 (-9, -9) (0, 0) 0 (by decide), ?_⟩
  exact (move_dot_away_matches_claim.2 3 4 0 0 (by decide)).1

/-! ### Soundness of the dot sampler and dot moves -/

theorem spawn_dot_sound {snake : List Pos}
    {draws : List ((Fin 8 × Fin 8) × Bool)} {p : Pos}
    (h : spawn_dot_away_from snake draws = some p) :
    p ∉ snake ∧ p ∉ DOT_FORBIDDEN := by
  induction draws with
  | nil => simp [spawn_dot_away_from] at h
  | cons d rest ih =>
    obtain ⟨rc, coin⟩ := d
    rw [spawn_dot_away_from] at h
    split at h
    · rename_i hcond
      cases h
      exact ⟨hcond.1, hcond.2.1⟩
    · exact ih h

theorem pick_new_color_sound {old : Nat} {draws : List Nat} {c : Nat}
    (h : pick_new_color old draws = some c) : c ≠ old := by
  induction draws with
  | nil => simp [pick_new_color] at h
  | cons x rest ih =>
    rw [pick_new_color] at h
    split at h
    · exact ih h
    · rename_i hne
      cases h
      exact hne

theorem getD_mem_of_lt {α : Type} :
    ∀ (l : List α) (n : Nat) (dflt : α), n < l.length →
      l.getD n dflt ∈ l := by
  intro l
  induction l with
  | nil => intro n dflt h; simp at h
  | cons a as ih =>
    intro n dflt h
    cases n with
    | zero => simp [List.getD]
    | succ n =>
      simp only [List.getD_cons_succ]
      exact List.mem_cons_of_mem _ (ih n dflt (by simpa using h))

theorem dot_best_dirs_ne_nil {dot snake_head : Pos}
    (h : dot_scored_dirs dot snake_head ≠ []) :
    dot_best_dirs dot snake_head ≠ [] := by
  rw [dot_best_dirs]
  rcases hsort : sortScoredDesc (dot_scored_dirs dot snake_head)
    with _ | ⟨s, tail⟩
  · exact absurd (sortScoredDesc_eq_nil_iff.mp hsort) h
  · simp [List.headI, List.filter_cons]

theorem mem_dot_best_dirs {dot snake_head : Pos} {d : Pos}
    (h : d ∈ dot_best_dirs dot snake_head) :
    ((clamp (dot.1 + d.1), clamp (dot.2 + d.2)) : Pos) ≠ dot ∧
    ((clamp (dot.1 + d.1), clamp (dot.2 + d.2)) : Pos) ∉ DOT_FORBIDDEN := by
  rw [dot_best_dirs] at h
  obtain ⟨⟨s, d'⟩, hmem, heq⟩ := List.mem_map.mp h
  have hscored : (s, d') ∈ dot_scored_dirs dot snake_head :=
    mem_sortScoredDesc.mp (List.mem_filter.mp hmem).1
  simp only [dot_scored_dirs, List.mem_filterMap] at hscored
  obtain ⟨d0, _, hf⟩ := hscored
  by_cases hcond : ((clamp (dot.1 + d0.1), clamp (dot.2 + d0.2)) : Pos) = dot ∨
      ((clamp (dot.1 + d0.1), clamp (dot.2 + d0.2)) : Pos) ∈ DOT_FORBIDDEN
  · rw [if_pos hcond] at hf
    exact absurd hf (by simp)
  · rw [if_neg hcond] at hf
    have hpair := Option.some.inj hf
    have hd0 : d0 = d' := congrArg Prod.snd hpair
    push_neg at hcond
    have hdd : d' = d := heq
    rw [hd0, hdd] at hcond
    exact hcond

theorem move_dot_away_not_forbidden {dot : Pos} (snake_head : Pos) (k : Nat)
    (h : dot ∉ DOT_FORBIDDEN) :
    move_dot_away dot snake_head k ∉ DOT_FORBIDDEN := by
  rw [move_dot_away]
  split
  · exact h
  · rename_i hscored
    have hbest : dot_best_dirs dot snake_head ≠ [] := dot_best_dirs_ne_nil hscored
    have hlen : 0 < (dot_best_dirs dot snake_head).length :=
      List.length_pos.mpr hbest
    have hmem : (dot_best_dirs dot snake_head).getD
        (k % (dot_best_dirs dot snake_head).length) (0, 0) ∈
        dot_best_dirs dot snake_head :=
      getD_mem_of_lt _ _ _ (Nat.mod_lt _ hlen)
    exact (mem_dot_best_dirs hmem).2

/-! ### Claims C5 and C6 -/

/-- C5: a returned respawn position avoids the chaser's occupied cells
and the forbidden corners, and the redrawn color index always differs
from the pre-collision one. -/
theorem hunt_catch_respawn_ok :
    (∀ (snake : List Pos) (draws : List ((Fin 8 × Fin 8) × Bool)) (p : Pos),
       spawn_dot_away_from snake draws = some p →
       p ∉ snake ∧ p ∉ DOT_FORBIDDEN) ∧
    (∀ (old : Nat) (draws : List Nat) (c : Nat),
       pick_new_color old draws = some c → c ≠ old) :=
  ⟨fun _ _ _ h => spawn_dot_sound h, fun _ _ _ h => pick_new_color_sound h⟩

/-- C5, witness: a respawn against the code's initial snake accepting
the draw `(0,3)`, and the color redraw `[2, 5]` after previous
color 2. -/
theorem hunt_catch_respawn_witness :
    (((0 : Int), (3 : Int)) ∉ hunt_initial_snake ∧
      ((0 : Int), (3 : Int)) ∉ DOT_FORBIDDEN) ∧ (5 : Nat) ≠ 2 :=
  ⟨hunt_catch_respawn_ok.1 hunt_initial_snake [((0, 3), true)] (0, 3)
      (by decide),
    hunt_catch_respawn_ok.2 2 [2, 5] 5 (by decide)⟩

/-- C6: starting outside the forbidden set, the dot stays outside it
under every sequence of flee moves and respawns. -/
theorem dot_never_forbidden (events : List DotEvent) :
    ∀ dot : Pos, dot ∉ DOT_FORBIDDEN →
      events.foldl dot_event_step dot ∉ DOT_FORBIDDEN := by
  induction events with
  | nil => intro dot h; simpa using h
  | cons e rest ih =>
    intro dot h
    rw [List.foldl_cons]
    apply ih
    cases e with
    | move snake_head k => exact move_dot_away_not_forbidden snake_head k h
    | respawn snake draws =>
      rw [dot_event_step]
      rcases hs : spawn_dot_away_from snake draws with _ | p
      · simpa using h
      · simpa using (spawn_dot_sound hs).2

/-- C6, witness: a flee move from `(3,4)` away from head `(0,0)`
followed by a respawn. -/
theorem dot_never_forbidden_witness :
    [DotEvent.move (0, 0) 0,
      DotEvent.respawn hunt_initial_snake [((0, 3), true)]].foldl
        dot_event_step (3, 4) ∉ DOT_FORBIDDEN :=
  dot_never_forbidden _ (3, 4) (by decide)

/-! ### Claim C9: the respawn sampler -/

theorem free_cells_card_ge (snake : List Pos) (h : snake.length = 5) :
    47 ≤ (free_cells snake).card := by
  classical
  have hsplit :
      (Finset.univ.filter (fun q : Fin 8 × Fin 8 =>
          finToPos q ∈ snake ∨ finToPos q ∈ DOT_FORBIDDEN)).card +
        (Finset.univ.filter (fun q : Fin 8 × Fin 8 =>
          ¬ (finToPos q ∈ snake ∨ finToPos q ∈ DOT_FORBIDDEN))).card = 64 := by
    rw [Finset.filter_card_add_filter_neg_card_eq_card]
    simp
  have hfree : free_cells snake =
      Finset.univ.filter (fun q : Fin 8 × Fin 8 =>
        ¬ (finToPos q ∈ snake ∨ finToPos q ∈ DOT_FORBIDDEN)) := by
    apply Finset.filter_congr
    intro q _
    constructor
    · intro hq
      push_neg
      exact hq
    · intro hq
      push_neg at hq
      exact hq
  have hsub :
      Finset.univ.filter (fun q : Fin 8 × Fin 8 =>
          finToPos q ∈ snake ∨ finToPos q ∈ DOT_FORBIDDEN) =
        Finset.univ.filter (fun q => finToPos q ∈ snake) ∪
          Finset.univ.filter (fun q => finToPos q ∈ DOT_FORBIDDEN) :=
    Finset.filter_or _ _ _
  have hforb :
      (Finset.univ.filter (fun q : Fin 8 × Fin 8 =>
        finToPos q ∈ DOT_FORBIDDEN)).card = 12 := by decide
  have hsnake :
      (Finset.univ.filter (fun q : Fin 8 × Fin 8 =>
        finToPos q ∈ snake)).card ≤ 5 := by
    have hmapsto : ∀ q ∈ Finset.univ.filter
        (fun q : Fin 8 × Fin 8 => finToPos q ∈ snake),
        finToPos q ∈ snake.toFinset := by
      intro q hq
      rw [List.mem_toFinset]
      exact (Finset.mem_filter.mp hq).2
    have hinj : Set.InjOn finToPos ↑(Finset.univ.filter
        (fun q : Fin 8 × Fin 8 => finToPos q ∈ snake)) := by
      intro a _ b _ hab
      obtain ⟨a1, a2⟩ := a
      obtain ⟨b1, b2⟩ := b
      simp only [finToPos, Prod.mk.injEq] at hab
      obtain ⟨h1, h2⟩ := hab
      have e1 : a1.val = b1.val := by exact_mod_cast h1
      have e2 : a2.val = b2.val := by exact_mod_cast h2
      exact Prod.ext (Fin.ext e1) (Fin.ext e2)
    calc (Finset.univ.filter
          (fun q : Fin 8 × Fin 8 => finToPos q ∈ snake)).card
        ≤ snake.toFinset.card :=
          Finset.card_le_card_of_injOn finToPos hmapsto hinj
      _ ≤ snake.length := snake.toFinset_card_le
      _ = 5 := h
  have hle := Finset.card_union_le
    (Finset.univ.filter (fun q : Fin 8 × Fin 8 => finToPos q ∈ snake))
    (Finset.univ.filter (fun q : Fin 8 × Fin 8 => finToPos q ∈ DOT_FORBIDDEN))
  rw [hfree]
  rw [hsub] at hsplit
  omega

/-- C9: every length-5 chaser leaves at least 47 of the 64 grid cells
neither chaser-occupied nor forbidden, so the respawn sampler always
has accepting candidates; yet the rejection loop has no iteration
bound: the random stream that keeps drawing the cell under the initial
snake's head makes `_spawn_dot_away_from` reject forever, for every
stream length. -/
theorem spawn_sampler_candidates_nontermination :
    (∀ snake : List Pos, snake.length = 5 → 47 ≤ (free_cells snake).card) ∧
    (∀ n : Nat,
      spawn_dot_away_from hunt_initial_snake
        (List.replicate n (((3 : Fin 8), (3 : Fin 8)), true)) = none) := by
  refine ⟨free_cells_card_ge, fun n => ?_⟩
  induction n with
  | zero => rfl
  | succ n ih =>
    rw [List.replicate_succ, spawn_dot_away_from, if_neg]
    · exact ih
    · intro hcond
      exact hcond.1 (by decide)

/-- C9, witness: the code's initial snake leaves at least 47 free
cells, and two head-hitting draws reject twice. -/
theorem spawn_sampler_witness :
    47 ≤ (free_cells hunt_initial_snake).card ∧
    spawn_dot_away_from hunt_initial_snake
      (List.replicate 2 (((3 : Fin 8), (3 : Fin 8)), true)) = none :=
  ⟨spawn_sampler_candidates_nontermination.1 hunt_initial_snake rfl,
    spawn_sampler_candidates_nontermination.2 2⟩

/-! ### Claim C3: failure propagation -/

/-- C3 (counterexample): the claim "every device I/O failure occurring
while a pattern is running is a no-op ... for every state of the
output channel" and "nothing in this core raises to its caller" is
false: with the channel present, a raising `send` propagates out of
`_send_note_on` (there is no try/except around it), and
`JSONLLogger._write_entry` re-raises the `OSError` after printing to
stderr. -/
theorem device_failure_counterexample :
    send_note_on (some ()) true 11 5 0 = .error "device error" ∧
    write_entry (some "disk full") = .error "disk full" :=
  ⟨rfl, rfl⟩

/-- C3 (amended): a device message is silently dropped exactly when
the output channel is absent; with the channel present a transport
failure propagates out of `_send_note_on` uncaught, and the logger
re-raises a failed write to its caller (after printing a fallback line
to stderr) instead of absorbing it. -/
theorem failure_absorption_amended :
    (∀ (sendFails : Bool) (note velocity channel : Nat),
       send_note_on none sendFails note velocity channel = .ok []) ∧
    (∀ (note velocity channel : Nat),
       send_note_on (some ()) true note velocity channel =
         .error "device error") ∧
    (∀ e, write_entry (some e) = .error e) :=
  ⟨fun _ _ _ _ => rfl, fun _ _ _ => rfl, fun _ => rfl⟩

/-! ### Claim C7: connect failure cases -/

/-- C7: `connect()` returns failure without throwing whenever the
communication library is unavailable, no output name passes the port
filter, or opening the channel raises, and in every such case no
message has been sent to the device. -/
theorem connect_failure_cases (env : MidoEnv)
    (h : env.available = false ∨
         env.output_names.find? port_name_matches = none ∨
         env.open_fails = true) :
    (connect env).1 = false ∧ (connect env).2.2 = [] := by
  rcases h with h | h | h
  · simp [connect, h]
  · by_cases ha : env.available = false
    · simp [connect, ha]
    · simp [connect, ha, h]
  · by_cases ha : env.available = false
    · simp [connect, ha]
    · rcases hf : env.output_names.find? port_name_matches with _ | port
      · simp [connect, ha, hf]
      · simp [connect, ha, hf, h]

/-- C7, witness: the test fixture exposing only "Other MIDI Device"
(which lacks the Launchpad pattern) makes `connect` fail with no
device writes. -/
theorem connect_failure_witness :
    (connect ⟨true, ["Other MIDI Device"], false⟩).1 = false ∧
    (connect ⟨true, ["Other MIDI Device"], false⟩).2.2 = [] :=
  connect_failure_cases _ (Or.inr (Or.inl (by decide)))

/-! ### Claim C8: stop followed by disconnect -/

theorem foldl_clear_leds :
    ∀ (notes : List Nat) (st : LightsState), st.outport = some () →
      (notes.foldl (fun s n => led_send_note_on s n 0) st).outport = some () ∧
      (notes.foldl (fun s n => led_send_note_on s n 0) st).modeResetSent =
        st.modeResetSent ∧
      (notes.foldl (fun s n => led_send_note_on s n 0) st).portClosed =
        st.portClosed ∧
      ∀ n, (notes.foldl (fun s n => led_send_note_on s n 0) st).leds n =
        if n ∈ notes then 0 else st.leds n := by
  intro notes
  induction notes with
  | nil =>
    intro st h
    exact ⟨h, rfl, rfl, fun n => by simp⟩
  | cons m rest ih =>
    intro st h
    rw [List.foldl_cons]
    have hsend : (led_send_note_on st m 0).outport = some () ∧
        (led_send_note_on st m 0).modeResetSent = st.modeResetSent ∧
        (led_send_note_on st m 0).portClosed = st.portClosed ∧
        ∀ n, (led_send_note_on st m 0).leds n =
          if n = m then 0 else st.leds n := by
      simp [led_send_note_on, h]
    obtain ⟨ho, hm, hp, hl⟩ := ih (led_send_note_on st m 0) hsend.1
    refine ⟨ho, by rw [hm, hsend.2.1], by rw [hp, hsend.2.2.1], fun n => ?_⟩
    rw [hl n, hsend.2.2.2 n]
    by_cases h1 : n ∈ rest <;> by_cases h2 : n = m <;>
      simp [List.mem_cons, h1, h2]

theorem clear_all_leds_spec (st : LightsState) (h : st.outport = some ()) :
    (clear_all_leds st).outport = some () ∧
    (clear_all_leds st).modeResetSent = st.modeResetSent ∧
    (clear_all_leds st).portClosed = st.portClosed ∧
    ∀ n ∈ PAD_NOTES ++ CONTROL_NOTES, (clear_all_leds st).leds n = 0 := by
  unfold clear_all_leds
  obtain ⟨ho, hm, hp, hl⟩ := foldl_clear_leds (PAD_NOTES ++ CONTROL_NOTES) st h
  exact ⟨ho, hm, hp, fun n hn => by rw [hl n, if_pos hn]⟩

/-- C8 (counterexample): the claim "for every failure raised while
resetting or clearing the device during disconnect(), the channel is
still released (the connection handle is cleared and the port is
closed)" is false: when `_exit_programmer_mode` raises, the
`except: pass` abandons the rest of the `try` block, so
`outport.close()` never runs - the handle is cleared but the port is
not closed. -/
theorem disconnect_close_skipped_counterexample :
    demo_connected_state.outport = some () ∧
    (disconnect demo_connected_state true false false).outport = none ∧
    (disconnect demo_connected_state true false false).portClosed = false :=
  ⟨rfl, rfl, rfl⟩

/-- C8 (amended): for every connected instance, `stop()` followed by
`disconnect()` always clears the connection handle; when any of the
reset, clear or close steps raises, the port `close()` does not run
(its closed flag is unchanged); and on the failure-free path every
addressable cell's last-sent color is off, the device mode-reset was
sent, and the port is closed. -/
theorem stop_disconnect_amended (st : LightsState)
    (hconn : st.outport = some ()) (ef cf clf : Bool) :
    (disconnect (stop st) ef cf clf).outport = none ∧
    ((ef || cf || clf) = true →
      (disconnect (stop st) ef cf clf).portClosed = st.portClosed) ∧
    (ef = false → cf = false → clf = false →
      (disconnect (stop st) ef cf clf).portClosed = true ∧
      (disconnect (stop st) ef cf clf).modeResetSent = true ∧
      ∀ n ∈ PAD_NOTES ++ CONTROL_NOTES,
        (disconnect (stop st) ef cf clf).leds n = 0) := by
  have hstop2 : (stop (stop st)).outport = some () := hconn
  have hexit : exit_programmer_mode (stop (stop st)) =
      { stop (stop st) with modeResetSent := true } := by
    simp only [exit_programmer_mode, hstop2]
  have hexit_out : (exit_programmer_mode (stop (stop st))).outport = some () := by
    rw [hexit]
    exact hconn
  have hclear := clear_all_leds_spec (exit_programmer_mode (stop (stop st)))
    hexit_out
  have hd_ef : ef = true →
      disconnect (stop st) ef cf clf =
        { stop (stop st) with outport := none } := by
    intro h
    subst h
    simp [disconnect, hstop2]
  have hd_cf : ef = false → cf = true →
      disconnect (stop st) ef cf clf =
        { exit_programmer_mode (stop (stop st)) with outport := none } := by
    intro h1 h2
    subst h1
    subst h2
    simp [disconnect, hstop2]
  have hd_clf : ef = false → cf = false → clf = true →
      disconnect (stop st) ef cf clf =
        { clear_all_leds (exit_programmer_mode (stop (stop st))) with
            outport := none } := by
    intro h1 h2 h3
    subst h1
    subst h2
    subst h3
    simp [disconnect, hstop2]
  have hd_ok : ef = false → cf = false → clf = false →
      disconnect (stop st) ef cf clf =
        { clear_all_leds (exit_programmer_mode (stop (stop st))) with
            portClosed := true, outport := none } := by
    intro h1 h2 h3
    subst h1
    subst h2
    subst h3
    simp [disconnect, hstop2]
  have hclear_pc :
      (clear_all_leds (exit_programmer_mode (stop (stop st)))).portClosed =
        st.portClosed := by
    rw [hclear.2.2.1, hexit]
    rfl
  have hclear_mode :
      (clear_all_leds (exit_programmer_mode (stop (stop st)))).modeResetSent =
        true := by
    rw [hclear.2.1, hexit]
  refine ⟨?_, ?_, ?_⟩
  · cases ef
    · cases cf
      · cases clf
        · rw [hd_ok rfl rfl rfl]
        · rw [hd_clf rfl rfl rfl]
      · rw [hd_cf rfl rfl]
    · rw [hd_ef rfl]
  · intro hor
    cases ef
    · cases cf
      · cases clf
        · simp at hor
        · rw [hd_clf rfl rfl rfl]
          exact hclear_pc
      · rw [hd_cf rfl rfl]
        show (exit_programmer_mode (stop (stop st))).portClosed = st.portClosed
        rw [hexit]
        rfl
    · rw [hd_ef rfl]
      rfl
  · intro h1 h2 h3
    subst h1
    subst h2
    subst h3
    rw [hd_ok rfl rfl rfl]
    refine ⟨rfl, hclear_mode, fun n hn => ?_⟩
    show (clear_all_leds (exit_programmer_mode (stop (stop st)))).leds n = 0
    exact hclear.2.2.2 n hn

/-- C8 amended, witness: the failure-free path on the lit fixture. -/
theorem stop_disconnect_witness :
    (disconnect (stop demo_connected_state) false false false).outport =
      none ∧
    (disconnect (stop demo_connected_state) false false false).portClosed =
      true ∧
    (disconnect (stop demo_connected_state) false false false).modeResetSent =
      true ∧
    (disconnect (stop demo_connected_state) false false false).leds 11 = 0 := by
  have h := stop_disconnect_amended demo_connected_state rfl false false false
  obtain ⟨h1, _, h3⟩ := h
  obtain ⟨hp, hm, hl⟩ := h3 rfl rfl rfl
  exact ⟨h1, hp, hm, hl 11 (by decide)⟩

/-! ### Claim C10: start ignores the pattern name -/

/-- C10: for every pattern string other than "random" (misspellings
and the non-pursuit pattern names included), `start` behaves exactly
as with the default "hunt" argument; in particular from a connected
(or connectable), non-running state it returns success and launches
the hunt loop - the pattern name is never validated and never causes
failure. -/
theorem start_ignores_pattern_name (pattern : String)
    (hne : pattern ≠ "random") (op run cs : Bool) :
    start op run cs pattern = start op run cs "hunt" ∧
    ((op = true ∨ cs = true) → run = false →
      start op run cs pattern = (true, true, some LoopKind.hunt)) := by
  have hbeq : (pattern == "random") = false := by
    rw [beq_eq_false_iff_ne]
    exact hne
  have hbeq2 : (("hunt" : String) == "random") = false := by decide
  constructor
  · simp [start, hbeq, hbeq2]
  · intro hoc hrun
    subst hrun
    rcases hoc with h | h <;> subst h <;> simp [start, hbeq]

/-- C10, witness: `start` with the non-pursuit pattern name
"sparkle". -/
theorem start_ignores_pattern_name_witness :
    start true false true "sparkle" = start true false true "hunt" ∧
    start true false true "sparkle" = (true, true, some LoopKind.hunt) := by
  have h := start_ignores_pattern_name "sparkle" (by decide) true false true
  exact ⟨h.1, h.2 (Or.inl rfl) rfl⟩

end Clubmaquis
